import Mathlib

/-!
Verification of the AgroCarbonNet backend against its specification.

The Python sources under `src/backend/` are shallowly embedded:
floating-point numbers are modelled as exact rationals (`ℚ`), Python
strings as Lean `String`, `None`-able values as `Option`, and code that
can raise as `Except`-valued functions.  External artifacts that are not
part of the repository (the pickled Random-Forest model, the label
encoders, the training CSV, the HTTP network) are modelled as explicit
parameters (`Env`, network oracles), so every embedded operation is a
pure, executable Lean function.
-/

/-! ## String helpers (Python `str` operations used by the backend) -/

/-- Python `str.lower()` restricted to ASCII case mapping (every string the
backend compares with is ASCII). -/
def pyLower (s : String) : String := String.mk (s.toList.map Char.toLower)

/-- Python `str.strip()`: drop leading and trailing whitespace. -/
def pyStrip (s : String) : String :=
  String.mk (((s.toList.dropWhile Char.isWhitespace).reverse.dropWhile
    Char.isWhitespace).reverse)

/-- One step of Python `str.title()`: the Boolean carries whether the previous
character was alphabetic. -/
def pyTitleAux : Bool → List Char → List Char
  | _, [] => []
  | prevAlpha, c :: rest =>
    (if c.isAlpha then (if prevAlpha then c.toLower else c.toUpper) else c)
      :: pyTitleAux c.isAlpha rest

/-- Python `str.title()` (ASCII alphabetic characters). -/
def pyTitle (s : String) : String := String.mk (pyTitleAux false s.toList)

/-- `listHasSub pat hay = true` iff `pat` occurs as a contiguous run in `hay`
(Python's `pat in hay` on strings). -/
def listHasSub (pat : List Char) : List Char → Bool
  | [] => pat.isEmpty
  | c :: rest => pat.isPrefixOf (c :: rest) || listHasSub pat rest

/-- Python substring test `pat in hay`. -/
def strHasSub (hay pat : String) : Bool := listHasSub pat.toList hay.toList

/-- Python `x or default` on an optional float: `None` and `0.0` are falsy. -/
def pyOr (x : Option ℚ) (d : ℚ) : ℚ :=
  match x with
  | none => d
  | some v => if v = 0 then d else v

/-- Number of characters of `text` with code point in `[lo, hi]`. -/
def countInRange (lo hi : Nat) (text : String) : Nat :=
  (text.toList.filter (fun c => decide (lo ≤ c.toNat ∧ c.toNat ≤ hi))).length

/-! ## `detect_language` (src/backend/server.py, lines 199-220) -/

/-- The Romanized-Hindi word list of `detect_language`. -/
def hindi_words : List String :=
  ["kya", "hai", "mera", "meri", "kaise", "karo", "karna", "fasal", "kheti",
   "pani", "baarish"]

/-- `detect_language` from `src/backend/server.py`.  The Python fractions
`telugu_chars / total > 0.15` are modelled exactly over `ℚ`, i.e. as
`100 * telugu_chars > 15 * total`. -/
def detect_language (text : String) : String :=
  let telugu_chars := countInRange 0xC00 0xC7F text
  let hindi_chars := countInRange 0x900 0x97F text
  let total := text.length
  if total = 0 then "en"
  else if 100 * telugu_chars > 15 * total then "te"
  else if 100 * hindi_chars > 15 * total then "hi"
  else if hindi_words.any (fun w => strHasSub (pyLower text) w) then "hi"
  else "en"

/-- The classification described by the specification of `detect_language`
(claim C4), written from the spec's words: `"en"` for the empty string,
`"te"` when more than 15% of the characters are Telugu code points (checked
before Hindi), `"hi"` when more than 15% are Devanagari code points or a
listed Romanized Hindi word occurs in the lowercased text, `"en"` otherwise. -/
def detectLanguageSpec (text : String) : String :=
  if text = "" then "en"
  else if 100 * countInRange 0xC00 0xC7F text > 15 * text.length then "te"
  else if 100 * countInRange 0x900 0x97F text > 15 * text.length
      ∨ hindi_words.any (fun w => strHasSub (pyLower text) w) = true then "hi"
  else "en"

/-! ## LlmChat (src/backend/emergentintegrations/llm/chat.py)

The HTTP layer (`httpx.AsyncClient.post`, `response.json()` and the
`['choices'][0]['message']['content']` lookup) is modelled as an oracle
`Network`: `Except.error` models the call raising, and an `HttpResponse`
carries the status code, the body text, and the (possibly failing) content
extraction. -/

structure Msg where
  role : String
  content : String
deriving DecidableEq

structure LlmChat where
  api_key : String
  session_id : String
  system_message : String
  model : String
  history : List Msg
deriving DecidableEq

/-- `LlmChat.__init__`. -/
def LlmChat.init (api_key session_id system_message : String) : LlmChat :=
  { api_key := api_key, session_id := session_id,
    system_message := system_message, model := "gpt-4o",
    history := [{ role := "system", content := system_message }] }

/-- `LlmChat.with_model` keeps only the model name (the provider is ignored
by the source too). -/
def LlmChat.with_model (c : LlmChat) (_provider model : String) : LlmChat :=
  { c with model := model }

/-- An HTTP POST as `send_message` builds it: target URL, model name and the
message list sent as the conversation. -/
structure Payload where
  url : String
  model : String
  messages : List Msg
deriving DecidableEq

structure HttpResponse where
  status_code : Nat
  text : String
  content : Except String String

def Network : Type := Payload → Except String HttpResponse

def mock_response : String :=
  "I am a mock AI assistant. Please provide a valid API Key in .env to get real responses."

def openai_url : String := "https://api.openai.com/v1/chat/completions"

def openrouter_url : String := "https://openrouter.ai/api/v1/chat/completions"

/-- The payload `send_message` posts for chat `c` and user text `text`:
OpenRouter keys (prefix `sk-or-v1`) are routed to OpenRouter with the model
renamed `openai/gpt-4o`, anything else to OpenAI. -/
def payloadOf (c : LlmChat) (text : String) : Payload :=
  let hist1 := c.history ++ [{ role := "user", content := text }]
  if "sk-or-v1".isPrefixOf c.api_key then
    { url := openrouter_url,
      model := if c.model = "gpt-4o" then "openai/gpt-4o" else c.model,
      messages := hist1 }
  else
    { url := openai_url, model := c.model, messages := hist1 }

/-- The observable outcome of one `send_message` call: the updated chat, the
returned string, and the POST requests actually issued (in order). -/
structure SendResult where
  chat : LlmChat
  reply : String
  posts : List Payload

/-- `LlmChat.send_message` from `src/backend/emergentintegrations/llm/chat.py`:
appends the user message, short-circuits to a mock reply for a missing or
placeholder key, otherwise issues one POST; a raising call, a non-200 status
or an unusable body each produce an error string (the method never raises). -/
def LlmChat.send_message (net : Network) (c : LlmChat) (text : String) :
    SendResult :=
  let hist1 := c.history ++ [{ role := "user", content := text }]
  if c.api_key = "" ∨ c.api_key = "your_key_here" then
    { chat := { c with history :=
        hist1 ++ [{ role := "assistant", content := mock_response }] },
      reply := mock_response, posts := [] }
  else
    let p := payloadOf c text
    match net p with
    | Except.error e =>
        { chat := { c with history := hist1 },
          reply := "Sorry, I am having trouble connecting to the server. Error: " ++ e,
          posts := [p] }
    | Except.ok resp =>
        if resp.status_code ≠ 200 then
          { chat := { c with history := hist1 },
            reply :=
              "I encountered an error connecting to the AI service. Details: API Error ("
                ++ toString resp.status_code ++ "): " ++ resp.text,
            posts := [p] }
        else
          match resp.content with
          | Except.error e =>
              { chat := { c with history := hist1 },
                reply := "Sorry, I am having trouble connecting to the server. Error: " ++ e,
                posts := [p] }
          | Except.ok content =>
              { chat := { c with history :=
                  hist1 ++ [{ role := "assistant", content := content }] },
                reply := content, posts := [p] }

/-- A concrete chat used to witness the failure-path theorems. -/
def chatW : LlmChat :=
  (LlmChat.init "sk-test-key-123" "session-1" "You are a helpful assistant.").with_model
    "openai" "gpt-4o"

/-! ## WeatherService (src/backend/weather_service.py)

`get_coordinates` and the error propagation of `get_weather` /
`get_weather_advisory` are embedded.  The body of `get_weather`'s `try`
block — the Open-Meteo HTTP GET, `raise_for_status`, JSON decoding and the
field extraction that builds the `weather_info` dictionary — is modelled by
an oracle `fetchProcess : Coords → Except String WeatherInfo`; `Except.error`
models any exception raised inside the `try`, which the source catches and
turns into `None`. -/

structure Coords where
  lat : ℚ
  lon : ℚ
deriving DecidableEq

/-- `INDIA_LOCATIONS` of src/backend/weather_service.py, in source
(insertion) order: state name, coordinates, capital city. -/
def INDIA_LOCATIONS : List (String × Coords × String) :=
  [("andhra pradesh", ⟨165062/10000, 806480/10000⟩, "Vijayawada"),
   ("telangana", ⟨173850/10000, 784867/10000⟩, "Hyderabad"),
   ("punjab", ⟨307333/10000, 767794/10000⟩, "Chandigarh"),
   ("haryana", ⟨307333/10000, 767794/10000⟩, "Chandigarh"),
   ("uttar pradesh", ⟨268467/10000, 809462/10000⟩, "Lucknow"),
   ("maharashtra", ⟨190760/10000, 728777/10000⟩, "Mumbai"),
   ("madhya pradesh", ⟨232599/10000, 774126/10000⟩, "Bhopal"),
   ("gujarat", ⟨230225/10000, 725714/10000⟩, "Ahmedabad"),
   ("rajasthan", ⟨269124/10000, 757873/10000⟩, "Jaipur"),
   ("karnataka", ⟨129716/10000, 775946/10000⟩, "Bengaluru"),
   ("tamil nadu", ⟨130827/10000, 802707/10000⟩, "Chennai"),
   ("west bengal", ⟨225726/10000, 883639/10000⟩, "Kolkata"),
   ("bihar", ⟨255941/10000, 851376/10000⟩, "Patna"),
   ("odisha", ⟨202961/10000, 858245/10000⟩, "Bhubaneswar"),
   ("kerala", ⟨85241/10000, 769366/10000⟩, "Thiruvananthapuram"),
   ("assam", ⟨261445/10000, 917362/10000⟩, "Guwahati"),
   ("jharkhand", ⟨233441/10000, 853096/10000⟩, "Ranchi"),
   ("chhattisgarh", ⟨212514/10000, 816296/10000⟩, "Raipur"),
   ("uttarakhand", ⟨303165/10000, 780322/10000⟩, "Dehradun"),
   ("himachal pradesh", ⟨311048/10000, 771734/10000⟩, "Shimla")]

/-- `DISTRICT_COORDS` of src/backend/weather_service.py, in source order. -/
def DISTRICT_COORDS : List (String × Coords) :=
  [("guntur", ⟨163067/10000, 804365/10000⟩),
   ("krishna", ⟨166100/10000, 807214/10000⟩),
   ("east godavari", ⟨17, 82⟩),
   ("west godavari", ⟨169174/10000, 813399/10000⟩),
   ("kurnool", ⟨158281/10000, 780373/10000⟩),
   ("anantapur", ⟨146819/10000, 776006/10000⟩),
   ("karimnagar", ⟨184386/10000, 791288/10000⟩),
   ("warangal", ⟨179784/10000, 795941/10000⟩),
   ("nizamabad", ⟨186725/10000, 780941/10000⟩),
   ("khammam", ⟨172473/10000, 801514/10000⟩),
   ("ludhiana", ⟨309010/10000, 758573/10000⟩),
   ("amritsar", ⟨316340/10000, 748723/10000⟩),
   ("jalandhar", ⟨313260/10000, 755762/10000⟩),
   ("patiala", ⟨303398/10000, 763869/10000⟩),
   ("meerut", ⟨289845/10000, 777064/10000⟩),
   ("lucknow", ⟨268467/10000, 809462/10000⟩),
   ("agra", ⟨271767/10000, 780081/10000⟩),
   ("varanasi", ⟨253176/10000, 829739/10000⟩),
   ("gorakhpur", ⟨267606/10000, 833732/10000⟩),
   ("nagpur", ⟨211458/10000, 790882/10000⟩),
   ("pune", ⟨185204/10000, 738567/10000⟩),
   ("nashik", ⟨199975/10000, 737898/10000⟩),
   ("kolhapur", ⟨167050/10000, 742433/10000⟩),
   ("ahmedabad", ⟨230225/10000, 725714/10000⟩),
   ("rajkot", ⟨223039/10000, 708022/10000⟩),
   ("surat", ⟨211702/10000, 728311/10000⟩),
   ("jaipur", ⟨269124/10000, 757873/10000⟩),
   ("jodhpur", ⟨262389/10000, 730243/10000⟩),
   ("bikaner", ⟨280229/10000, 733119/10000⟩),
   ("belgaum", ⟨158497/10000, 744977/10000⟩),
   ("mysore", ⟨122958/10000, 766394/10000⟩),
   ("dharwad", ⟨154589/10000, 750078/10000⟩),
   ("chennai", ⟨130827/10000, 802707/10000⟩),
   ("coimbatore", ⟨110168/10000, 769558/10000⟩),
   ("madurai", ⟨99252/10000, 781198/10000⟩),
   ("thanjavur", ⟨107870/10000, 791378/10000⟩)]

/-- `WeatherService.get_coordinates`: the first district whose name is a
substring of the lowercased (and stripped) location, then the first such
state, then `none`. -/
def get_coordinates (loc : String) : Option Coords :=
  let l := pyStrip (pyLower loc)
  match DISTRICT_COORDS.find? (fun d => strHasSub l d.1) with
  | some d => some d.2
  | none =>
    match INDIA_LOCATIONS.find? (fun s => strHasSub l s.1) with
    | some s => some s.2.1
    | none => none

/-- One advisory entry as `_generate_agri_advisory` builds it. -/
structure Advisory where
  type : String
  severity : String
  message_en : String
  message_hi : String
  message_te : String

/-- The dictionary `get_weather` returns on success (the fields
`get_weather_advisory` reads). -/
structure WeatherInfo where
  loc : String
  current_summary : String
  forecast_summary : String
  agricultural_advisory : List Advisory

/-- The oracle for the body of `get_weather`'s `try` block. -/
def FetchProcess : Type := Coords → Except String WeatherInfo

/-- `WeatherService.get_weather`: `None` when the location cannot be
geocoded, `None` when anything inside the `try` raises, the processed
weather dictionary otherwise. -/
def get_weather (fetchProcess : FetchProcess) (loc : String) :
    Option WeatherInfo :=
  match get_coordinates loc with
  | none => none
  | some coords =>
    match fetchProcess coords with
    | Except.error _ => none
    | Except.ok w => some w

/-- The JSON object `get_weather_advisory` returns (the fields every branch
sets). -/
structure AdvisoryResult where
  error : Bool
  message : Option String
  advisories : List (String × String × String)
  data_source : Option String

/-- `get_weather_advisory` from src/backend/weather_service.py: an error
object when `get_weather` yields nothing, otherwise the advisories formatted
in the requested language (`message_<language>` with English fallback). -/
def get_weather_advisory (fetchProcess : FetchProcess) (loc language : String) :
    AdvisoryResult :=
  match get_weather fetchProcess loc with
  | none =>
    { error := true,
      message := some "Could not fetch weather data for this location",
      advisories := [], data_source := none }
  | some weather =>
    { error := false,
      message := none,
      advisories := weather.agricultural_advisory.map (fun a =>
        (a.type, a.severity,
          if language = "en" then a.message_en
          else if language = "hi" then a.message_hi
          else if language = "te" then a.message_te
          else a.message_en)),
      data_source := some "Open-Meteo Weather API" }

/-! ## Sessions and the database (src/backend/server.py)

The MongoDB collections are modelled as lists of documents, and the
database effect of each API route handler in `server.py` is enumerated as
an `ApiOp`.  Reading the source: `create_session` (lines 522-530) does one
`db.sessions.insert_one`; `get_session` (lines 532-538) only reads
(`find_one`); `chat` (lines 540-620) does one `db.messages.insert_many`
with the user and assistant messages; `get_messages` only reads; every
other route (`predict`, `crops`, `states`, `schemes`, `detect-language`,
`model-info`, `weather`, `speech-to-text`, `analyze-pest-image`, the
chart-data routes and the root route) touches no collection.  Each insert
is wrapped in `try/except`, so the `ok` flag of an operation records
whether the insert reached the database. -/

/-- The `Session` pydantic model: id, language, optional farm context and
the two creation-time timestamps (timestamps as opaque strings). -/
structure Session where
  id : String
  language : String
  farm_context : Option (List (String × String))
  created_at : String
  updated_at : String
deriving DecidableEq

structure MessageDoc where
  id : String
  session_id : String
  role : String
  content : String
  language : String
  timestamp : String
deriving DecidableEq

structure DbState where
  sessions : List Session
  messages : List MessageDoc
deriving DecidableEq

/-- The database effect of one API call, at the granularity the claims
need. -/
inductive ApiOp where
  /-- `POST /api/session`: one `insert_one` into `sessions` (skipped when
  the insert raises). -/
  | createSession (s : Session) (ok : Bool)
  /-- `GET /api/session/{id}`: a read only. -/
  | getSession (session_id : String)
  /-- `POST /api/chat`: one `insert_many` into `messages` (skipped when the
  insert raises). -/
  | chatInsert (user_msg assistant_msg : MessageDoc) (ok : Bool)
  /-- `GET /api/messages/{id}`: a read only. -/
  | getMessages (session_id : String)
  /-- `POST /api/predict` and every remaining route: no database access. -/
  | predictRoute
  | otherRoute

/-- How each handler changes the database. -/
def applyOp : ApiOp → DbState → DbState
  | ApiOp.createSession s ok, db =>
      if ok then { db with sessions := db.sessions ++ [s] } else db
  | ApiOp.getSession _, db => db
  | ApiOp.chatInsert u a ok, db =>
      if ok then { db with messages := db.messages ++ [u, a] } else db
  | ApiOp.getMessages _, db => db
  | ApiOp.predictRoute, db => db
  | ApiOp.otherRoute, db => db

/-! ## Crop knowledge base (src/backend/crop_knowledge.py)

`CROP_KNOWLEDGE` is a static dictionary; the embedding carries exactly the
fields `predict_yield_ml` reads from a crop entry: `optimal_soil`,
`fertilizer_recommendation` (N/P/K), `yield_range_kg_ha` and `tips`.  The
remaining fields (names, seasons, pests, MSP, ...) are not read by any
embedded operation. -/

structure YieldRange where
  min : ℚ
  max : ℚ
  avg : ℚ
deriving DecidableEq

structure FertRec where
  N : String
  P : String
  K : String
deriving DecidableEq

structure CropInfo where
  optimal_soil : List String
  fertilizer_recommendation : FertRec
  yield_range_kg_ha : YieldRange
  tips : List String
deriving DecidableEq

def crop_chickpea : CropInfo :=
  { optimal_soil := ["Black", "Loamy", "Sandy loam"],
    fertilizer_recommendation := ⟨"20 kg/ha", "40 kg/ha", "20 kg/ha"⟩,
    yield_range_kg_ha := ⟨800, 2000, 1200⟩,
    tips := ["Seed treatment with Rhizobium culture increases yield by 15-20%",
      "Avoid waterlogging - chickpea is highly sensitive",
      "One irrigation at flowering critical for pod filling",
      "Use wilt-resistant varieties in endemic areas"] }

def crop_pigeon_pea : CropInfo :=
  { optimal_soil := ["Loamy", "Sandy loam", "Red"],
    fertilizer_recommendation := ⟨"20 kg/ha", "50 kg/ha", "20 kg/ha"⟩,
    yield_range_kg_ha := ⟨600, 1500, 900⟩,
    tips := ["Use ICPL 87119 (Asha) for wilt resistance",
      "Nipping at 30 days promotes branching",
      "IPM with pheromone traps reduces pod borer by 40%",
      "Intercrop with sorghum or cotton for better returns"] }

def crop_lentil : CropInfo :=
  { optimal_soil := ["Loamy", "Clay loam", "Alluvial"],
    fertilizer_recommendation := ⟨"20 kg/ha", "40 kg/ha", "20 kg/ha"⟩,
    yield_range_kg_ha := ⟨600, 1500, 900⟩,
    tips := ["Conserve soil moisture with mulching",
      "Avoid late sowing - reduces yield significantly",
      "Spray 2% urea at flowering for better grain filling",
      "Harvest when 80% pods turn brown"] }

def crop_moong : CropInfo :=
  { optimal_soil := ["Loamy", "Sandy loam", "Alluvial"],
    fertilizer_recommendation := ⟨"20 kg/ha", "40 kg/ha", "20 kg/ha"⟩,
    yield_range_kg_ha := ⟨500, 1200, 800⟩,
    tips := ["Use virus-resistant varieties (IPM 02-3, SML 668)",
      "Short duration crop - ideal for crop intensification",
      "Yellow sticky traps reduce whitefly by 60%",
      "Pick mature pods every 3-4 days for multiple harvests"] }

def crop_urad : CropInfo :=
  { optimal_soil := ["Loamy", "Clay loam", "Black"],
    fertilizer_recommendation := ⟨"20 kg/ha", "40 kg/ha", "20 kg/ha"⟩,
    yield_range_kg_ha := ⟨500, 1200, 750⟩,
    tips := ["Select YMV resistant varieties",
      "Avoid waterlogging at all costs",
      "Seed treatment with Trichoderma prevents root rot",
      "Harvest when 80% pods mature to avoid shattering"] }

def crop_mustard : CropInfo :=
  { optimal_soil := ["Loamy", "Sandy loam", "Alluvial"],
    fertilizer_recommendation := ⟨"80 kg/ha", "40 kg/ha", "40 kg/ha"⟩,
    yield_range_kg_ha := ⟨1000, 2500, 1500⟩,
    tips := ["Apply sulphur for higher oil content (increases by 2-3%)",
      "Control aphids before flowering stage",
      "Thiram seed treatment prevents seedling diseases",
      "Harvest when 75% siliquae turn yellow"] }

def crop_sunflower : CropInfo :=
  { optimal_soil := ["Loamy", "Clay loam", "Black"],
    fertilizer_recommendation := ⟨"60 kg/ha", "60 kg/ha", "30 kg/ha"⟩,
    yield_range_kg_ha := ⟨1000, 2000, 1400⟩,
    tips := ["Use hybrids for 30-40% higher yield",
      "Boron application improves seed setting",
      "Bird scaring needed during maturity",
      "Harvest when back of head turns yellow"] }

def crop_castor : CropInfo :=
  { optimal_soil := ["Sandy loam", "Loamy", "Red"],
    fertilizer_recommendation := ⟨"60 kg/ha", "40 kg/ha", "20 kg/ha"⟩,
    yield_range_kg_ha := ⟨1000, 2500, 1500⟩,
    tips := ["India is world's largest castor producer",
      "Use GCH-7 hybrid for high yield",
      "IPM reduces pest management cost by 50%",
      "Harvest spikes when capsules turn brown"] }

def crop_sesame : CropInfo :=
  { optimal_soil := ["Sandy loam", "Loamy", "Alluvial"],
    fertilizer_recommendation := ⟨"40 kg/ha", "20 kg/ha", "20 kg/ha"⟩,
    yield_range_kg_ha := ⟨300, 800, 450⟩,
    tips := ["Drought tolerant - ideal for rainfed areas",
      "White seeded varieties fetch premium",
      "Harvest when lower capsules start browning",
      "Stack harvested plants upside down to dry"] }

def crop_tomato : CropInfo :=
  { optimal_soil := ["Loamy", "Sandy loam", "Red"],
    fertilizer_recommendation := ⟨"120 kg/ha", "60 kg/ha", "60 kg/ha"⟩,
    yield_range_kg_ha := ⟨20000, 50000, 30000⟩,
    tips := ["Stake plants for better quality fruits",
      "Drip irrigation increases yield by 30%",
      "Use TLCV resistant hybrids in endemic areas",
      "Harvest at breaker stage for distant markets"] }

def crop_potato : CropInfo :=
  { optimal_soil := ["Sandy loam", "Loamy", "Alluvial"],
    fertilizer_recommendation := ⟨"150 kg/ha", "100 kg/ha", "120 kg/ha"⟩,
    yield_range_kg_ha := ⟨15000, 35000, 22000⟩,
    tips := ["Use certified seed tubers only",
      "Earthing up twice is essential",
      "Stop irrigation 10 days before harvest",
      "Cure tubers before storage"] }

def crop_onion : CropInfo :=
  { optimal_soil := ["Loamy", "Clay loam", "Alluvial"],
    fertilizer_recommendation := ⟨"100 kg/ha", "50 kg/ha", "50 kg/ha"⟩,
    yield_range_kg_ha := ⟨15000, 30000, 20000⟩,
    tips := ["Stop irrigation 15 days before harvest",
      "Cure bulbs for 7-10 days before storage",
      "Proper ventilation in storage reduces losses",
      "Grade before selling for better prices"] }

def crop_chilli : CropInfo :=
  { optimal_soil := ["Loamy", "Sandy loam", "Black"],
    fertilizer_recommendation := ⟨"100 kg/ha", "50 kg/ha", "50 kg/ha"⟩,
    yield_range_kg_ha := ⟨8000, 20000, 12000⟩,
    tips := ["Use virus-free seedlings from protected nursery",
      "Mulching reduces thrips and conserves moisture",
      "Pick red chillies at 75% color development",
      "Solar drying gives better color and quality"] }

def crop_brinjal : CropInfo :=
  { optimal_soil := ["Loamy", "Clay loam", "Alluvial"],
    fertilizer_recommendation := ⟨"100 kg/ha", "50 kg/ha", "50 kg/ha"⟩,
    yield_range_kg_ha := ⟨25000, 50000, 35000⟩,
    tips := ["Use pheromone traps @ 5/acre for borer monitoring",
      "Clip and destroy affected shoots weekly",
      "Harvest at right maturity - shiny fruits",
      "Avoid waterlogging to prevent bacterial wilt"] }

def crop_okra : CropInfo :=
  { optimal_soil := ["Loamy", "Sandy loam", "Alluvial"],
    fertilizer_recommendation := ⟨"100 kg/ha", "60 kg/ha", "50 kg/ha"⟩,
    yield_range_kg_ha := ⟨8000, 15000, 10000⟩,
    tips := ["Use YVMV resistant varieties",
      "Pick tender fruits every 2-3 days",
      "Seed treatment with Imidacloprid prevents early pest attack",
      "Summer crop fetches premium prices"] }

def crop_rice : CropInfo :=
  { optimal_soil := ["Alluvial", "Clay", "Loamy"],
    fertilizer_recommendation := ⟨"120 kg/ha", "60 kg/ha", "40 kg/ha"⟩,
    yield_range_kg_ha := ⟨2500, 6500, 4000⟩,
    tips := ["Maintain 5cm water level during vegetative stage",
      "Apply nitrogen in 3 splits: basal, tillering, panicle initiation",
      "Use zinc sulfate @ 25 kg/ha in zinc deficient soils",
      "Drain field 15 days before harvest"] }

def crop_wheat : CropInfo :=
  { optimal_soil := ["Alluvial", "Loamy", "Clay loam"],
    fertilizer_recommendation := ⟨"120 kg/ha", "60 kg/ha", "40 kg/ha"⟩,
    yield_range_kg_ha := ⟨2500, 5500, 3500⟩,
    tips := ["Timely sowing before November 25 for optimal yield",
      "First irrigation at 21 days is critical for crown root development",
      "Apply nitrogen in 2-3 splits",
      "Watch for yellow rust in North India during February"] }

def crop_cotton : CropInfo :=
  { optimal_soil := ["Black", "Alluvial"],
    fertilizer_recommendation := ⟨"60-80 kg/ha", "30 kg/ha", "30 kg/ha"⟩,
    yield_range_kg_ha := ⟨1200, 2200, 1500⟩,
    tips := ["Use Bt cotton varieties for bollworm resistance",
      "Maintain proper plant population (11,000-13,000 plants/ha)",
      "Install pheromone traps for pink bollworm monitoring",
      "Apply potash for better fiber quality"] }

def crop_sugarcane : CropInfo :=
  { optimal_soil := ["Alluvial", "Loamy", "Black"],
    fertilizer_recommendation := ⟨"250-300 kg/ha", "60-80 kg/ha", "60 kg/ha"⟩,
    yield_range_kg_ha := ⟨50000, 100000, 75000⟩,
    tips := ["Use disease-free seed material from registered nurseries",
      "Earthing up twice at 90 and 120 days after planting",
      "Stop irrigation 3 weeks before harvest for better sugar recovery",
      "Ratoon management can give 80% of plant crop yield"] }

def crop_groundnut : CropInfo :=
  { optimal_soil := ["Sandy loam", "Red", "Loamy"],
    fertilizer_recommendation := ⟨"10-20 kg/ha", "40 kg/ha", "40 kg/ha"⟩,
    yield_range_kg_ha := ⟨1000, 2500, 1500⟩,
    tips := ["Apply gypsum at flowering for better pod filling",
      "Maintain soil moisture during pegging stage",
      "Harvest at 75-80% mature pods",
      "Dry pods to 8-10% moisture before storage"] }

def crop_soybean : CropInfo :=
  { optimal_soil := ["Black", "Alluvial", "Loamy"],
    fertilizer_recommendation := ⟨"20-30 kg/ha (starter)", "60-80 kg/ha", "40 kg/ha"⟩,
    yield_range_kg_ha := ⟨1500, 2500, 2000⟩,
    tips := ["Treat seeds with Rhizobium culture before sowing",
      "Ensure good drainage - waterlogging is fatal",
      "Use certified virus-free seeds",
      "Harvest when 95% pods turn brown"] }

def crop_maize : CropInfo :=
  { optimal_soil := ["Loamy", "Alluvial", "Black"],
    fertilizer_recommendation := ⟨"120 kg/ha", "60 kg/ha", "40 kg/ha"⟩,
    yield_range_kg_ha := ⟨2500, 6000, 4000⟩,
    tips := ["Critical water requirement during tasseling and silking",
      "Use single cross hybrids for higher yield",
      "Watch for fall armyworm - spray at first sign",
      "Harvest at 20-25% grain moisture"] }

def crop_bajra : CropInfo :=
  { optimal_soil := ["Sandy", "Sandy loam", "Light soils"],
    fertilizer_recommendation := ⟨"40-60 kg/ha", "20 kg/ha", "20 kg/ha"⟩,
    yield_range_kg_ha := ⟨800, 2000, 1200⟩,
    tips := ["Best suited for arid and semi-arid regions",
      "Sow with onset of monsoon",
      "Use hybrid varieties for better yield",
      "Good for intercropping with pulses"] }

def crop_jowar : CropInfo :=
  { optimal_soil := ["Black", "Clay loam", "Medium black"],
    fertilizer_recommendation := ⟨"80 kg/ha", "40 kg/ha", "40 kg/ha"⟩,
    yield_range_kg_ha := ⟨1000, 3000, 1500⟩,
    tips := ["Rabi jowar gives better grain quality",
      "Deep black soils retain moisture for rabi season",
      "Use shoot fly resistant varieties for kharif",
      "Harvest at physiological maturity for fodder+grain"] }

/-- The crop table, in source (insertion) order. -/
def CROP_KNOWLEDGE : List (String × CropInfo) :=
  [("chickpea", crop_chickpea),
   ("pigeon_pea", crop_pigeon_pea),
   ("lentil", crop_lentil),
   ("moong", crop_moong),
   ("urad", crop_urad),
   ("mustard", crop_mustard),
   ("sunflower", crop_sunflower),
   ("castor", crop_castor),
   ("sesame", crop_sesame),
   ("tomato", crop_tomato),
   ("potato", crop_potato),
   ("onion", crop_onion),
   ("chilli", crop_chilli),
   ("brinjal", crop_brinjal),
   ("okra", crop_okra),
   ("rice", crop_rice),
   ("wheat", crop_wheat),
   ("cotton", crop_cotton),
   ("sugarcane", crop_sugarcane),
   ("groundnut", crop_groundnut),
   ("soybean", crop_soybean),
   ("maize", crop_maize),
   ("bajra", crop_bajra),
   ("jowar", crop_jowar)]

/-- `get_crop_info` from src/backend/crop_knowledge.py. -/
def get_crop_info (crop_name : String) : Option CropInfo :=
  List.lookup (pyStrip (pyLower crop_name)) CROP_KNOWLEDGE

/-! ## State knowledge and location handling (src/backend/crop_knowledge.py,
src/backend/server.py)

Of a `STATE_AGRI_INFO` entry only `rainfall_mm.avg` is read by
`predict_yield_ml`; the table keeps the source's keys and insertion
order. -/

structure StateInfo where
  rainfall_mm_avg : ℚ
deriving DecidableEq

def STATE_AGRI_INFO : List (String × StateInfo) :=
  [("andhra pradesh", ⟨900⟩),
   ("telangana", ⟨900⟩),
   ("punjab", ⟨500⟩),
   ("uttar pradesh", ⟨900⟩),
   ("maharashtra", ⟨1000⟩),
   ("madhya pradesh", ⟨1100⟩),
   ("gujarat", ⟨600⟩),
   ("rajasthan", ⟨350⟩),
   ("karnataka", ⟨1200⟩),
   ("tamil nadu", ⟨950⟩)]

/-- `get_state_info` from src/backend/crop_knowledge.py. -/
def get_state_info (state_name : String) : Option StateInfo :=
  List.lookup (pyStrip (pyLower state_name)) STATE_AGRI_INFO

/-- `district_state_map` inside `get_state_from_location`
(src/backend/server.py, lines 227-239), in source order. -/
def district_state_map : List (String × String) :=
  [("guntur", "andhra pradesh"), ("krishna", "andhra pradesh"),
   ("nellore", "andhra pradesh"),
   ("karimnagar", "telangana"), ("warangal", "telangana"),
   ("nizamabad", "telangana"),
   ("ludhiana", "punjab"), ("amritsar", "punjab"), ("jalandhar", "punjab"),
   ("meerut", "uttar pradesh"), ("lucknow", "uttar pradesh"),
   ("agra", "uttar pradesh"),
   ("nagpur", "maharashtra"), ("pune", "maharashtra"),
   ("nashik", "maharashtra"),
   ("indore", "madhya pradesh"), ("bhopal", "madhya pradesh"),
   ("ujjain", "madhya pradesh"),
   ("ahmedabad", "gujarat"), ("rajkot", "gujarat"), ("surat", "gujarat"),
   ("jaipur", "rajasthan"), ("jodhpur", "rajasthan"), ("bikaner", "rajasthan"),
   ("bengaluru", "karnataka"), ("mysore", "karnataka"),
   ("belgaum", "karnataka"),
   ("chennai", "tamil nadu"), ("coimbatore", "tamil nadu"),
   ("madurai", "tamil nadu"),
   ("kolkata", "west bengal"), ("patna", "bihar"), ("ranchi", "jharkhand")]

/-- `get_state_from_location` from src/backend/server.py: the first district
key occurring in the lowercased location wins, then the first state key,
then the lowercased location itself. -/
def get_state_from_location (loc : String) : String :=
  let location_lower := pyLower loc
  match district_state_map.find? (fun d => strHasSub location_lower d.1) with
  | some d => d.2
  | none =>
    match (STATE_AGRI_INFO.map Prod.fst).find?
        (fun st => strHasSub location_lower st) with
    | some st => st
    | none => location_lower

/-! ## `predict_yield_ml` (src/backend/server.py, lines 253-437)

The artifacts loaded at startup (`yield_model.pkl`, `encoders.pkl`,
`model_stats.pkl`, `india_crop_data.csv`) are not files of the repository;
they are modelled as an `Env`: the stored encoder class arrays, the model's
prediction function (`Except.error` models `predict` raising), the test
score, the optional CSV rows, and the float-to-string formatters Python
uses inside f-strings. -/

structure FarmInput where
  crop_type : String
  soil_type : String
  season : String
  location : String
  rainfall_mm : Option ℚ
  irrigation_percent : Option ℚ
  fertilizer_kg_ha : Option ℚ
  temperature_c : Option ℚ
  area_hectares : Option ℚ
deriving DecidableEq

/-- The field names of `FarmInput` (src/backend/server.py, lines 167-176),
in declaration order. -/
def farmInputFields : List String :=
  ["crop_type", "soil_type", "season", "location", "rainfall_mm",
   "irrigation_percent", "fertilizer_kg_ha", "temperature_c",
   "area_hectares"]

structure Factor where
  factor : String
  impact : String
  detail : String
deriving DecidableEq

structure MLPrediction where
  predicted_yield_kg_ha : ℚ
  predicted_yield_quintal_acre : ℚ
  confidence_score : ℚ
  risk_level : String
  state_avg_yield : Option ℚ
  national_avg_yield : Option ℚ
  influential_factors : List Factor
  recommendations : List String
  crop_info : Option CropInfo
  comparison : String
  data_source : String
deriving DecidableEq

/-- The field names of `MLPrediction` (src/backend/server.py, lines
178-189), in declaration order. -/
def mlPredictionFields : List String :=
  ["predicted_yield_kg_ha", "predicted_yield_quintal_acre",
   "confidence_score", "risk_level", "state_avg_yield",
   "national_avg_yield", "influential_factors", "recommendations",
   "crop_info", "comparison", "data_source"]

/-- One row of `data/india_crop_data.csv` (the columns `predict_yield_ml`
reads). -/
structure CropRow where
  crop : String
  state : String
  yield_kg_ha : ℚ
deriving DecidableEq

/-- The loaded artifacts and ambient Python behaviour `predict_yield_ml`
depends on.  `fmt` stands for Python's `str()` of a float inside an
f-string, `fmt0` for the `:.0f` format. -/
structure Env where
  ml_model_loaded : Bool
  cropClasses : List String
  soilClasses : List String
  seasonClasses : List String
  modelPredict : List ℚ → Except String ℚ
  test_score : ℚ
  crop_data : Option (List CropRow)
  fmt : ℚ → String
  fmt0 : ℚ → String

/-- `sklearn.LabelEncoder.transform` on one value: the index into the stored
class array when the value is a known class, a raised `ValueError`
otherwise. -/
def labelTransform (classes : List String) (x : String) : Except String Nat :=
  if x ∈ classes then Except.ok (classes.indexOf x)
  else Except.error "y contains previously unseen labels"

/-- Python's `round` to the nearest integer, ties to even (banker's
rounding), idealized over exact rationals. -/
def pyRoundInt (x : ℚ) : ℤ :=
  if Int.fract x = 1/2 then (if 2 ∣ ⌊x⌋ then ⌊x⌋ else ⌊x⌋ + 1) else round x

/-- Python `round(x, 2)` idealized over exact rationals. -/
def pyRound2 (x : ℚ) : ℚ := (pyRoundInt (100 * x) : ℚ) / 100

/-- `default_rainfall` of `predict_yield_ml`: 900, overridden by the state's
average rainfall when the state is known. -/
def default_rainfall (inp : FarmInput) : ℚ :=
  match get_state_info (get_state_from_location inp.location) with
  | some si => si.rainfall_mm_avg
  | none => 900

/-- `default_yield` of `predict_yield_ml`: the crop's knowledge-base average
when the crop is known, 3000 otherwise. -/
def default_yield (inp : FarmInput) : ℚ :=
  match get_crop_info inp.crop_type with
  | some ci => ci.yield_range_kg_ha.avg
  | none => 3000

/-- `rainfall = farm_input.rainfall_mm or default_rainfall`. -/
def effRainfall (inp : FarmInput) : ℚ := pyOr inp.rainfall_mm (default_rainfall inp)

/-- `irrigation = farm_input.irrigation_percent or 60`. -/
def effIrrigation (inp : FarmInput) : ℚ := pyOr inp.irrigation_percent 60

/-- `fertilizer = farm_input.fertilizer_kg_ha or 150`. -/
def effFertilizer (inp : FarmInput) : ℚ := pyOr inp.fertilizer_kg_ha 150

/-- `temperature = farm_input.temperature_c or 27`. -/
def effTemperature (inp : FarmInput) : ℚ := pyOr inp.temperature_c 27

/-- The body of `predict_yield_ml`'s `try` block (lines 285-316): encode the
three categories (an unknown category encodes as 0; a category that passes
the membership check but whose title-cased form is not a stored class makes
`transform` raise), build the feature row `[state, district, crop, season,
soil, rainfall, irrigation, fertilizer, temperature]` with state and
district fixed at 0, and run the model. -/
def tryPredict (env : Env) (inp : FarmInput)
    (rainfall irrigation fertilizer temperature : ℚ) : Except String ℚ := do
  let crop_key := pyStrip (pyLower inp.crop_type)
  let crop_encoded : Nat ←
    if crop_key ∈ env.cropClasses then
      labelTransform env.cropClasses (pyTitle crop_key)
    else pure 0
  let soil_key := pyStrip (pyLower inp.soil_type)
  let soil_encoded : Nat ←
    if soil_key ∈ env.soilClasses.map pyLower then
      labelTransform env.soilClasses (pyTitle soil_key)
    else pure 0
  let season_key := pyStrip (pyLower inp.season)
  let season_encoded : Nat ←
    if season_key ∈ env.seasonClasses.map pyLower then
      labelTransform env.seasonClasses (pyTitle season_key)
    else pure 0
  env.modelPredict
    [0, 0, (crop_encoded : ℚ), (season_encoded : ℚ), (soil_encoded : ℚ),
     rainfall, irrigation, fertilizer, temperature]

/-- The `try` block at the effective (defaulted) inputs. -/
def modelAttempt (env : Env) (inp : FarmInput) : Except String ℚ :=
  tryPredict env inp (effRainfall inp) (effIrrigation inp)
    (effFertilizer inp) (effTemperature inp)

/-- The knowledge-based fallback of the `except` branch (lines 321-331):
the crop's average yield scaled by the irrigation, rainfall and fertilizer
adjustment factors, clamped into the crop's yield range. -/
def kbFallbackYield (ci : CropInfo) (irrigation rainfall fertilizer : ℚ) : ℚ :=
  let base_yield := ci.yield_range_kg_ha.avg
  let irrigation_factor := 1 + (irrigation - 50) / 100 * (3/10)
  let rainfall_factor : ℚ := if 600 < rainfall ∧ rainfall < 1200 then 1 else 85/100
  let fertilizer_factor := 1 + (fertilizer - 100) / 200 * (1/5)
  let predicted := base_yield * irrigation_factor * rainfall_factor * fertilizer_factor
  max ci.yield_range_kg_ha.min (min ci.yield_range_kg_ha.max predicted)

/-- `predicted_yield` and `confidence` after the model/fallback logic
(lines 280-331): the defaults, overwritten by the model's output when the
`try` succeeds, by the clamped knowledge-based estimate when it raises and
the crop is known. -/
def predictedAndConfidence (env : Env) (inp : FarmInput) : ℚ × ℚ :=
  if env.ml_model_loaded then
    match modelAttempt env inp with
    | Except.ok y => (y, min (23/25) env.test_score)
    | Except.error _ =>
      match get_crop_info inp.crop_type with
      | some ci =>
        (kbFallbackYield ci (effIrrigation inp) (effRainfall inp)
          (effFertilizer inp), 3/4)
      | none => (default_yield inp, 3/4)
  else (default_yield inp, 3/4)

/-- The risk score of lines 337-351 (the `elif` of the source is equivalent
to the two disjoint rainfall addends). -/
def risk_score (inp : FarmInput) : ℕ :=
  (if effIrrigation inp < 40 then 2 else 0) +
  (if effRainfall inp < 500 then 2
   else if effRainfall inp > 1500 then 1 else 0) +
  (if effFertilizer inp < 80 then 1 else 0)

/-- The risk level of lines 353-358. -/
def risk_level (inp : FarmInput) : String :=
  if risk_score inp ≥ 3 then "High"
  else if risk_score inp ≥ 1 then "Medium"
  else "Low"

def qMean (l : List ℚ) : ℚ := l.sum / (l.length : ℚ)

def strTake (n : Nat) (s : String) : String := String.mk (s.toList.take n)

/-- Lines 360-370: the `(state_avg, national_avg)` pair from the loaded CSV;
pandas' `str.contains` on the 5-character state prefix is modelled as a
substring test. -/
def cropAverages (env : Env) (inp : FarmInput) : Option ℚ × Option ℚ :=
  match env.crop_data with
  | none => (none, none)
  | some rows =>
    let crop_match := rows.filter
      (fun r => pyLower r.crop == pyLower inp.crop_type)
    if crop_match.isEmpty then (none, none)
    else
      let national_avg := qMean (crop_match.map CropRow.yield_kg_ha)
      let state_name := get_state_from_location inp.location
      let state_match := crop_match.filter
        (fun r => strHasSub (pyLower r.state) (strTake 5 state_name))
      let state_avg :=
        if state_match.isEmpty then none
        else some (qMean (state_match.map CropRow.yield_kg_ha))
      (state_avg, some national_avg)

/-- The influential-factor list of lines 372-395 (before the `[:5]`
truncation). -/
def influentialFactors (env : Env) (inp : FarmInput) : List Factor :=
  let irrigation := effIrrigation inp
  let rainfall := effRainfall inp
  let fertilizer := effFertilizer inp
  let f1 : Factor :=
    if irrigation ≥ 70 then
      ⟨"Irrigation", "Positive",
        env.fmt irrigation ++ "% coverage - excellent water availability"⟩
    else if irrigation ≥ 40 then
      ⟨"Irrigation", "Moderate",
        env.fmt irrigation ++ "% coverage - adequate but can improve"⟩
    else
      ⟨"Irrigation", "Negative",
        env.fmt irrigation ++ "% coverage - insufficient, consider bore wells"⟩
  let f2 : Factor :=
    if 600 < rainfall ∧ rainfall < 1200 then
      ⟨"Rainfall", "Positive", env.fmt rainfall ++ "mm - optimal range"⟩
    else
      ⟨"Rainfall", "Risk", env.fmt rainfall ++ "mm - "
        ++ (if rainfall < 600 then "below" else "above") ++ " optimal"⟩
  let soil : List Factor :=
    match get_crop_info inp.crop_type with
    | some ci =>
      if pyTitle inp.soil_type ∈ ci.optimal_soil then
        [⟨"Soil Type", "Positive",
          inp.soil_type ++ " is ideal for " ++ inp.crop_type⟩]
      else
        [⟨"Soil Type", "Moderate",
          inp.soil_type ++ " - consider soil amendments"⟩]
    | none => []
  let f4 : Factor :=
    ⟨"Fertilizer", if fertilizer ≥ 120 then "Positive" else "Moderate",
      env.fmt fertilizer ++ " kg/ha applied"⟩
  [f1, f2] ++ soil ++ [f4]

/-- The recommendation list of lines 397-413 (before the `[:5]`
truncation). -/
def recommendationsOf (inp : FarmInput) : List String :=
  let base :=
    match get_crop_info inp.crop_type with
    | some ci =>
      ["Recommended fertilizer: N-" ++ ci.fertilizer_recommendation.N
        ++ ", P-" ++ ci.fertilizer_recommendation.P
        ++ ", K-" ++ ci.fertilizer_recommendation.K]
        ++ (if ci.tips.isEmpty then [] else ci.tips.take 2)
    | none => []
  let base := base ++ (if effIrrigation inp < 50 then
    ["Consider installing drip irrigation or micro-sprinklers to improve water efficiency"]
    else [])
  let base := base ++ (if risk_level inp = "High" then
    ["⚠️ High risk detected - Consider crop insurance under PMFBY scheme"]
    else [])
  base ++
    ["Get soil tested under Soil Health Card scheme for precise fertilizer recommendations"]

/-- The comparison text of lines 415-423 (`if national_avg:` lets both
`None` and `0.0` fall through to the empty string). -/
def comparisonText (env : Env) (inp : FarmInput) (predicted_yield : ℚ) : String :=
  match (cropAverages env inp).2 with
  | none => ""
  | some na =>
    if na = 0 then ""
    else if predicted_yield > na * (11/10) then
      "Your predicted yield is " ++ env.fmt0 ((predicted_yield / na - 1) * 100)
        ++ "% above national average (" ++ env.fmt0 na ++ " kg/ha)"
    else if predicted_yield < na * (9/10) then
      "Your predicted yield is " ++ env.fmt0 ((na / predicted_yield - 1) * 100)
        ++ "% below national average (" ++ env.fmt0 na ++ " kg/ha)"
    else
      "Your predicted yield is near national average ("
        ++ env.fmt0 na ++ " kg/ha)"

/-- `predict_yield_ml` from src/backend/server.py, lines 253-437.
`0.0404686` is carried as the exact rational `404686/10000000`. -/
def predict_yield_ml (env : Env) (farm_input : FarmInput) : MLPrediction :=
  let pc := predictedAndConfidence env farm_input
  let predicted_yield := pc.1
  let predicted_yield_quintal_acre := predicted_yield * (404686/10000000) / 10
  let avgs := cropAverages env farm_input
  { predicted_yield_kg_ha := pyRound2 predicted_yield,
    predicted_yield_quintal_acre := pyRound2 predicted_yield_quintal_acre,
    confidence_score := pyRound2 pc.2,
    risk_level := risk_level farm_input,
    state_avg_yield :=
      match avgs.1 with
      | some v => if v = 0 then none else some (pyRound2 v)
      | none => none,
    national_avg_yield :=
      match avgs.2 with
      | some v => if v = 0 then none else some (pyRound2 v)
      | none => none,
    influential_factors := (influentialFactors env farm_input).take 5,
    recommendations := (recommendationsOf farm_input).take 5,
    crop_info := get_crop_info farm_input.crop_type,
    comparison := comparisonText env farm_input predicted_yield,
    data_source :=
      "Government of India Agricultural Statistics (Ministry of Agriculture & Farmers Welfare, 2023)" }

/-- The risk score as claim C2 words it: a sum of four independent addends. -/
def riskScoreSpec (inp : FarmInput) : ℕ :=
  (if effIrrigation inp < 40 then 2 else 0) +
  (if effRainfall inp < 500 then 2 else 0) +
  (if effRainfall inp > 1500 then 1 else 0) +
  (if effFertilizer inp < 80 then 1 else 0)

/-- An environment for the concrete instances: model loaded, the model
itself always raises, no CSV. -/
def envFallback : Env :=
  { ml_model_loaded := true, cropClasses := [], soilClasses := [],
    seasonClasses := [], modelPredict := fun _ => Except.error "model failure",
    test_score := 4/5, crop_data := none,
    fmt := fun _ => "", fmt0 := fun _ => "" }

/-- An environment whose model succeeds with the constant prediction 9999
although `"wheat"` is not among the encoder's crop classes. -/
def envModelOk : Env :=
  { ml_model_loaded := true, cropClasses := ["Rice"], soilClasses := [],
    seasonClasses := [], modelPredict := fun _ => Except.ok 9999,
    test_score := 4/5, crop_data := none,
    fmt := fun _ => "", fmt0 := fun _ => "" }

def farmRice : FarmInput :=
  { crop_type := "rice", soil_type := "clay", season := "kharif",
    location := "punjab", rainfall_mm := some 900,
    irrigation_percent := some 60, fertilizer_kg_ha := some 150,
    temperature_c := some 27, area_hectares := none }

def farmWheat : FarmInput :=
  { crop_type := "wheat", soil_type := "loamy", season := "rabi",
    location := "punjab", rainfall_mm := some 900,
    irrigation_percent := some 60, fertilizer_kg_ha := some 150,
    temperature_c := some 27, area_hectares := none }

/-! ## Theorems -/

theorem string_length_eq_zero_iff (s : String) : s.length = 0 ↔ s = "" := by
  cases s with
  | mk data =>
    constructor
    · intro h
      have : data = [] := List.length_eq_zero.mp h
      simp [this]
    · intro h
      have : data = [] := by
        have := congrArg String.data h
        simpa using this
      simp [String.length, this]

/-- C4: `detect_language` returns one of exactly "en", "hi", "te" and agrees
with the spec's classification on every input string. -/
theorem detect_language_matches_spec (text : String) :
    detect_language text = detectLanguageSpec text ∧
      (detect_language text = "en" ∨ detect_language text = "hi" ∨
        detect_language text = "te") := by
  unfold detect_language detectLanguageSpec
  have hlen : (text.length = 0) ↔ (text = "") := string_length_eq_zero_iff text
  by_cases h0 : text.length = 0
  · simp [h0, hlen.mp h0]
  · have hne : ¬ text = "" := fun h => h0 (hlen.mpr h)
    by_cases hte : 100 * countInRange 0xC00 0xC7F text > 15 * text.length
    · simp [h0, hne, hte]
    · by_cases hhi : 100 * countInRange 0x900 0x97F text > 15 * text.length
      · simp [h0, hne, hte, hhi]
      · by_cases hw : hindi_words.any (fun w => strHasSub (pyLower text) w) = true
        · simp [h0, hne, hte, hhi, hw]
        · simp [h0, hne, hte, hhi, hw]

/-- C6: with an empty or placeholder API key, `send_message` issues no
outbound HTTP request, returns the fixed mock-assistant response, and appends
both the user message and the mock response to the history. -/
theorem send_message_mock_key (net : Network) (c : LlmChat) (text : String)
    (h : c.api_key = "" ∨ c.api_key = "your_key_here") :
    (LlmChat.send_message net c text).posts = [] ∧
      (LlmChat.send_message net c text).reply = mock_response ∧
      (LlmChat.send_message net c text).chat.history =
        c.history ++ [{ role := "user", content := text },
          { role := "assistant", content := mock_response }] := by
  unfold LlmChat.send_message
  rw [if_pos h]
  exact ⟨rfl, rfl, by simp⟩

theorem send_message_mock_key_witness :
    (LlmChat.send_message (fun _ => Except.error "network down")
        (LlmChat.init "" "s1" "sys") "hello").posts = [] ∧
      (LlmChat.send_message (fun _ => Except.error "network down")
        (LlmChat.init "" "s1" "sys") "hello").reply = mock_response ∧
      (LlmChat.send_message (fun _ => Except.error "network down")
        (LlmChat.init "" "s1" "sys") "hello").chat.history =
        (LlmChat.init "" "s1" "sys").history ++
          [{ role := "user", content := "hello" },
           { role := "assistant", content := mock_response }] :=
  send_message_mock_key _ _ _ (Or.inl rfl)

/-- C5: every `send_message` call appends the user message to the history
exactly once (whatever follows it is at most one assistant message) and
issues at most one HTTP POST; when the POST raises or returns a non-200
status, exactly that one POST was issued (no retry) and the returned value is
the corresponding error string (the function is total, so nothing is
raised). -/
theorem send_message_once (net : Network) (c : LlmChat) (text : String) :
    (∃ tail, (LlmChat.send_message net c text).chat.history
        = c.history ++ { role := "user", content := text } :: tail ∧
        (tail = [] ∨ ∃ a, tail = [{ role := "assistant", content := a }])) ∧
    (LlmChat.send_message net c text).posts.length ≤ 1 ∧
    (∀ e, net (payloadOf c text) = Except.error e →
      ¬(c.api_key = "" ∨ c.api_key = "your_key_here") →
      (LlmChat.send_message net c text).posts.length = 1 ∧
      (LlmChat.send_message net c text).reply
        = "Sorry, I am having trouble connecting to the server. Error: " ++ e) ∧
    (∀ resp, net (payloadOf c text) = Except.ok resp → resp.status_code ≠ 200 →
      ¬(c.api_key = "" ∨ c.api_key = "your_key_here") →
      (LlmChat.send_message net c text).posts.length = 1 ∧
      (LlmChat.send_message net c text).reply
        = "I encountered an error connecting to the AI service. Details: API Error ("
            ++ toString resp.status_code ++ "): " ++ resp.text) := by
  by_cases hkey : c.api_key = "" ∨ c.api_key = "your_key_here"
  · refine ⟨⟨[{ role := "assistant", content := mock_response }], ?_, ?_⟩, ?_, ?_, ?_⟩
    · simp [LlmChat.send_message, hkey]
    · exact Or.inr ⟨mock_response, rfl⟩
    · simp [LlmChat.send_message, hkey]
    · intro e _ hk; exact absurd hkey hk
    · intro resp _ _ hk; exact absurd hkey hk
  · cases hnet : net (payloadOf c text) with
    | error e =>
      refine ⟨⟨[], ?_, Or.inl rfl⟩, ?_, ?_, ?_⟩
      · simp [LlmChat.send_message, hkey, hnet]
      · simp [LlmChat.send_message, hkey, hnet]
      · intro e' he' _
        injection he' with h
        subst h
        constructor <;> simp [LlmChat.send_message, hkey, hnet]
      · intro resp hr
        exact Except.noConfusion hr
    | ok resp =>
      by_cases hst : resp.status_code = 200
      · cases hcon : resp.content with
        | error e =>
          refine ⟨⟨[], ?_, Or.inl rfl⟩, ?_, ?_, ?_⟩
          · simp [LlmChat.send_message, hkey, hnet, hst, hcon]
          · simp [LlmChat.send_message, hkey, hnet, hst, hcon]
          · intro e' he' _
            exact Except.noConfusion he'
          · intro resp' hr hst' _
            injection hr with h
            subst h
            exact absurd hst hst'
        | ok content =>
          refine ⟨⟨[{ role := "assistant", content := content }], ?_, ?_⟩, ?_, ?_, ?_⟩
          · simp [LlmChat.send_message, hkey, hnet, hst, hcon]
          · exact Or.inr ⟨content, rfl⟩
          · simp [LlmChat.send_message, hkey, hnet, hst, hcon]
          · intro e' he' _
            exact Except.noConfusion he'
          · intro resp' hr hst' _
            injection hr with h
            subst h
            exact absurd hst hst'
      · refine ⟨⟨[], ?_, Or.inl rfl⟩, ?_, ?_, ?_⟩
        · simp [LlmChat.send_message, hkey, hnet, hst]
        · simp [LlmChat.send_message, hkey, hnet, hst]
        · intro e' he' _
          exact Except.noConfusion he'
        · intro resp' hr _ _
          injection hr with h
          subst h
          constructor <;> simp [LlmChat.send_message, hkey, hnet, hst]

/-- With a real key, `send_message` issues exactly its one payload whatever
the network answers. -/
theorem send_message_posts_real (net : Network) (c : LlmChat) (text : String)
    (hkey : ¬(c.api_key = "" ∨ c.api_key = "your_key_here")) :
    (LlmChat.send_message net c text).posts = [payloadOf c text] := by
  cases hnet : net (payloadOf c text) with
  | error e => simp [LlmChat.send_message, hkey, hnet]
  | ok resp =>
    by_cases hst : resp.status_code = 200
    · cases hcon : resp.content with
      | error e => simp [LlmChat.send_message, hkey, hnet, hst, hcon]
      | ok content => simp [LlmChat.send_message, hkey, hnet, hst, hcon]
    · simp [LlmChat.send_message, hkey, hnet, hst]

/-- C10: `send_message` is not atomic on failure.  With a real key and a
failing call, the user message stays in the history with no assistant
message; the next call's POST then carries two consecutive user-role entries
in the conversation sent to the API. -/
theorem send_message_not_atomic (net net2 : Network) (c : LlmChat)
    (t1 t2 : String)
    (hkey : ¬(c.api_key = "" ∨ c.api_key = "your_key_here"))
    (hfail : ∀ r, net (payloadOf c t1) = Except.ok r →
      r.status_code ≠ 200 ∨ ∃ e, r.content = Except.error e) :
    (LlmChat.send_message net c t1).chat.history
        = c.history ++ [{ role := "user", content := t1 }] ∧
      ((LlmChat.send_message net2
          (LlmChat.send_message net c t1).chat t2).posts.map Payload.messages)
        = [c.history ++ [{ role := "user", content := t1 },
            { role := "user", content := t2 }]] := by
  have h1 : (LlmChat.send_message net c t1).chat.history
      = c.history ++ [{ role := "user", content := t1 }] := by
    cases hnet : net (payloadOf c t1) with
    | error e => simp [LlmChat.send_message, hkey, hnet]
    | ok resp =>
      rcases hfail resp hnet with hst | ⟨e, hcon⟩
      · simp [LlmChat.send_message, hkey, hnet, hst]
      · by_cases hst : resp.status_code = 200
        · simp [LlmChat.send_message, hkey, hnet, hst, hcon]
        · simp [LlmChat.send_message, hkey, hnet, hst]
  have hkey2 : (LlmChat.send_message net c t1).chat.api_key = c.api_key := by
    cases hnet : net (payloadOf c t1) with
    | error e => simp [LlmChat.send_message, hkey, hnet]
    | ok resp =>
      by_cases hst : resp.status_code = 200
      · cases hcon : resp.content with
        | error e => simp [LlmChat.send_message, hkey, hnet, hst, hcon]
        | ok content => simp [LlmChat.send_message, hkey, hnet, hst, hcon]
      · simp [LlmChat.send_message, hkey, hnet, hst]
  refine ⟨h1, ?_⟩
  have hmsgs : (payloadOf (LlmChat.send_message net c t1).chat t2).messages
      = c.history ++ [{ role := "user", content := t1 },
          { role := "user", content := t2 }] := by
    unfold payloadOf
    by_cases hor : "sk-or-v1".isPrefixOf (LlmChat.send_message net c t1).chat.api_key
    · simp [hor, h1]
    · simp [hor, h1]
  have hkey' : ¬((LlmChat.send_message net c t1).chat.api_key = ""
      ∨ (LlmChat.send_message net c t1).chat.api_key = "your_key_here") := by
    rw [hkey2]; exact hkey
  rw [send_message_posts_real net2 _ t2 hkey']
  simp [hmsgs]

theorem send_message_not_atomic_witness :
    (LlmChat.send_message (fun _ => Except.error "boom") chatW "first").chat.history
        = chatW.history ++ [{ role := "user", content := "first" }] ∧
      ((LlmChat.send_message (fun _ => Except.error "boom2")
          (LlmChat.send_message (fun _ => Except.error "boom") chatW "first").chat
          "second").posts.map Payload.messages)
        = [chatW.history ++ [{ role := "user", content := "first" },
            { role := "user", content := "second" }]] :=
  send_message_not_atomic _ _ chatW "first" "second" (by decide)
    (fun r h => by simp at h)

/-- C7: `get_weather_advisory` reports `error = true` exactly when the
location cannot be geocoded or the weather fetch fails; `get_coordinates`
resolves the first district whose name occurs in the lowercased location,
otherwise the first such state, otherwise nothing. -/
theorem weather_advisory_error_iff (fp : FetchProcess) (loc language : String) :
    ((get_weather_advisory fp loc language).error = true ↔
      (get_coordinates loc = none ∨
        ∃ coords e, get_coordinates loc = some coords ∧
          fp coords = Except.error e)) ∧
    (get_coordinates loc = none ↔
      ((∀ d ∈ DISTRICT_COORDS, ¬ strHasSub (pyStrip (pyLower loc)) d.1) ∧
        (∀ s ∈ INDIA_LOCATIONS, ¬ strHasSub (pyStrip (pyLower loc)) s.1))) ∧
    (∀ d, DISTRICT_COORDS.find?
        (fun d => strHasSub (pyStrip (pyLower loc)) d.1) = some d →
      get_coordinates loc = some d.2) ∧
    (DISTRICT_COORDS.find?
        (fun d => strHasSub (pyStrip (pyLower loc)) d.1) = none →
      ∀ s, INDIA_LOCATIONS.find?
          (fun s => strHasSub (pyStrip (pyLower loc)) s.1) = some s →
        get_coordinates loc = some s.2.1) := by
  refine ⟨?_, ?_, ?_, ?_⟩
  · unfold get_weather_advisory get_weather
    cases hc : get_coordinates loc with
    | none => simp
    | some coords =>
      cases hf : fp coords with
      | error e =>
        simp only [hf]
        constructor
        · intro _; exact Or.inr ⟨coords, e, rfl, hf⟩
        · intro _; trivial
      | ok w => simp [hf]
  · unfold get_coordinates
    cases hd : DISTRICT_COORDS.find?
        (fun d => strHasSub (pyStrip (pyLower loc)) d.1) with
    | some d =>
      have hmem := List.mem_of_find?_eq_some hd
      have hp := List.find?_some hd
      simp only [hd]
      constructor
      · intro h; exact Option.noConfusion h
      · rintro ⟨hdist, _⟩
        exact absurd hp (by simpa using hdist d hmem)
    | none =>
      cases hs : INDIA_LOCATIONS.find?
          (fun s => strHasSub (pyStrip (pyLower loc)) s.1) with
      | some s =>
        have hmem := List.mem_of_find?_eq_some hs
        have hp := List.find?_some hs
        simp only [hd, hs]
        constructor
        · intro h; exact Option.noConfusion h
        · rintro ⟨_, hstate⟩
          exact absurd hp (by simpa using hstate s hmem)
      | none =>
        simp only [hd, hs]
        constructor
        · intro _
          refine ⟨fun d hdm => ?_, fun s hsm => ?_⟩
          · simpa using List.find?_eq_none.mp hd d hdm
          · simpa using List.find?_eq_none.mp hs s hsm
        · intro _; trivial
  · intro d hd
    unfold get_coordinates
    simp only [hd]
  · intro hd s hs
    unfold get_coordinates
    simp only [hd, hs]

/-- C8: a session document is persisted once at creation and never updated:
`create_session` appends exactly the one new document, and no operation of
the API surface rewrites or removes an existing session document — after any
operation the sessions collection is the old collection extended by at most
one new document. -/
theorem session_never_updated (op : ApiOp) (db : DbState) :
    ((applyOp op db).sessions = db.sessions ∨
      ∃ s ok, op = ApiOp.createSession s ok ∧
        (applyOp op db).sessions = db.sessions ++ [s]) ∧
    (∀ s ok, op = ApiOp.createSession s ok → ok = true →
      (applyOp op db).sessions = db.sessions ++ [s]) ∧
    (∀ s ∈ db.sessions, s ∈ (applyOp op db).sessions) := by
  cases op with
  | createSession s ok =>
    cases ok with
    | false =>
      refine ⟨Or.inl rfl, ?_, ?_⟩
      · intro s' ok' heq hok
        injection heq with h1 h2
        exact absurd (h2.trans hok) (by simp)
      · intro s' hs'; simpa [applyOp] using hs'
    | true =>
      refine ⟨Or.inr ⟨s, true, rfl, by simp [applyOp]⟩, ?_, ?_⟩
      · intro s' ok' heq _
        injection heq with h1 h2
        subst h1
        simp [applyOp]
      · intro s' hs'
        simp only [applyOp, if_pos rfl]
        exact List.mem_append_left _ hs'
  | getSession sid =>
    refine ⟨Or.inl rfl, ?_, ?_⟩
    · intro s ok h; exact ApiOp.noConfusion h
    · intro s hs; exact hs
  | chatInsert u a ok =>
    refine ⟨Or.inl ?_, ?_, ?_⟩
    · cases ok <;> simp [applyOp]
    · intro s ok' h; exact ApiOp.noConfusion h
    · intro s hs
      cases ok <;> simpa [applyOp] using hs
  | getMessages sid =>
    refine ⟨Or.inl rfl, ?_, ?_⟩
    · intro s ok h; exact ApiOp.noConfusion h
    · intro s hs; exact hs
  | predictRoute =>
    refine ⟨Or.inl rfl, ?_, ?_⟩
    · intro s ok h; exact ApiOp.noConfusion h
    · intro s hs; exact hs
  | otherRoute =>
    refine ⟨Or.inl rfl, ?_, ?_⟩
    · intro s ok h; exact ApiOp.noConfusion h
    · intro s hs; exact hs

theorem risk_score_eq_spec (inp : FarmInput) :
    risk_score inp = riskScoreSpec inp := by
  unfold risk_score riskScoreSpec
  by_cases h1 : effRainfall inp < 500
  · have h2 : ¬ effRainfall inp > 1500 := by intro h; linarith
    simp [h1, h2]
  · simp [h1]

/-- C2: the returned `risk_level` is "High" exactly when the claim's risk
score (2 for irrigation below 40, 2 for rainfall below 500, 1 for rainfall
above 1500, 1 for fertilizer below 80, over the effective inputs) is at
least 3, "Medium" exactly when it is 1 or 2, "Low" exactly when it is 0. -/
theorem risk_classification (env : Env) (inp : FarmInput) :
    ((predict_yield_ml env inp).risk_level = "High" ↔ 3 ≤ riskScoreSpec inp) ∧
    ((predict_yield_ml env inp).risk_level = "Medium" ↔
      (1 ≤ riskScoreSpec inp ∧ riskScoreSpec inp ≤ 2)) ∧
    ((predict_yield_ml env inp).risk_level = "Low" ↔ riskScoreSpec inp = 0) := by
  have hrl : (predict_yield_ml env inp).risk_level = risk_level inp := rfl
  rw [hrl, ← risk_score_eq_spec inp]
  unfold risk_level
  by_cases h3 : risk_score inp ≥ 3
  · rw [if_pos h3]
    exact ⟨⟨fun _ => h3, fun _ => rfl⟩,
      ⟨fun h => absurd h (by decide), fun h => absurd h3 (by omega)⟩,
      ⟨fun h => absurd h (by decide), fun h => absurd h3 (by omega)⟩⟩
  · rw [if_neg h3]
    by_cases h1 : risk_score inp ≥ 1
    · rw [if_pos h1]
      exact ⟨⟨fun h => absurd h (by decide), fun h => absurd h h3⟩,
        ⟨fun _ => ⟨h1, by omega⟩, fun _ => rfl⟩,
        ⟨fun h => absurd h (by decide), fun h => absurd h1 (by omega)⟩⟩
    · rw [if_neg h1]
      exact ⟨⟨fun h => absurd h (by decide), fun h => absurd h h3⟩,
        ⟨fun h => absurd h (by decide), fun h => absurd h.1 h1⟩,
        ⟨fun _ => by omega, fun _ => rfl⟩⟩

theorem pyRoundInt_bounds (z : ℚ) :
    z - 1/2 ≤ (pyRoundInt z : ℚ) ∧ (pyRoundInt z : ℚ) ≤ z + 1/2 := by
  unfold pyRoundInt
  have hfr : Int.fract z = z - (⌊z⌋ : ℚ) := rfl
  split_ifs with hf he
  · rw [hfr] at hf
    constructor <;> [linarith; linarith [hf]]
  · rw [hfr] at hf
    push_cast
    constructor <;> linarith
  · have h := abs_le.mp (abs_sub_round z)
    constructor <;> linarith [h.1, h.2]

theorem pyRound2_bounds (a b : ℤ) (x : ℚ)
    (h1 : (a : ℚ) ≤ 100 * x) (h2 : 100 * x ≤ (b : ℚ)) :
    (a : ℚ) / 100 ≤ pyRound2 x ∧ pyRound2 x ≤ (b : ℚ) / 100 := by
  obtain ⟨l, u⟩ := pyRoundInt_bounds (100 * x)
  have hl : (a : ℚ) - 1 < (pyRoundInt (100 * x) : ℚ) := by linarith
  have hu : (pyRoundInt (100 * x) : ℚ) < (b : ℚ) + 1 := by linarith
  have hl' : a ≤ pyRoundInt (100 * x) := by
    have : a - 1 < pyRoundInt (100 * x) := by exact_mod_cast hl
    omega
  have hu' : pyRoundInt (100 * x) ≤ b := by
    have : pyRoundInt (100 * x) < b + 1 := by exact_mod_cast hu
    omega
  have hc1 : (a : ℚ) ≤ (pyRoundInt (100 * x) : ℚ) := by exact_mod_cast hl'
  have hc2 : ((pyRoundInt (100 * x)) : ℚ) ≤ (b : ℚ) := by exact_mod_cast hu'
  unfold pyRound2
  constructor <;> linarith

/-- C9: in the knowledge-based fallback branch (model loaded, the model
prediction raises, the crop is known), the returned `predicted_yield_kg_ha`
lies between the crop's `yield_range_kg_ha` min and max inclusive, whatever
the irrigation, rainfall and fertilizer inputs; the bounds are the crop
table's (integer-valued, min ≤ max) entries. -/
theorem fallback_yield_in_range (env : Env) (inp : FarmInput) (ci : CropInfo)
    (hload : env.ml_model_loaded = true)
    (hcrop : get_crop_info inp.crop_type = some ci)
    (hfail : ∃ e, modelAttempt env inp = Except.error e)
    (hlo : ∃ a : ℤ, (a : ℚ) = 100 * ci.yield_range_kg_ha.min)
    (hhi : ∃ b : ℤ, (b : ℚ) = 100 * ci.yield_range_kg_ha.max)
    (hmm : ci.yield_range_kg_ha.min ≤ ci.yield_range_kg_ha.max) :
    ci.yield_range_kg_ha.min ≤ (predict_yield_ml env inp).predicted_yield_kg_ha ∧
      (predict_yield_ml env inp).predicted_yield_kg_ha
        ≤ ci.yield_range_kg_ha.max := by
  obtain ⟨e, he⟩ := hfail
  have hpy : (predict_yield_ml env inp).predicted_yield_kg_ha
      = pyRound2 (kbFallbackYield ci (effIrrigation inp) (effRainfall inp)
          (effFertilizer inp)) := by
    simp [predict_yield_ml, predictedAndConfidence, hload, he, hcrop]
  have hy1 : ci.yield_range_kg_ha.min
      ≤ kbFallbackYield ci (effIrrigation inp) (effRainfall inp)
          (effFertilizer inp) := le_max_left _ _
  have hy2 : kbFallbackYield ci (effIrrigation inp) (effRainfall inp)
      (effFertilizer inp) ≤ ci.yield_range_kg_ha.max :=
    max_le hmm (min_le_left _ _)
  obtain ⟨a, ha⟩ := hlo
  obtain ⟨b, hb⟩ := hhi
  have hbnd := pyRound2_bounds a b
    (kbFallbackYield ci (effIrrigation inp) (effRainfall inp) (effFertilizer inp))
    (by rw [ha]; linarith) (by rw [hb]; linarith)
  rw [hpy]
  constructor
  · have : (a : ℚ) / 100 = ci.yield_range_kg_ha.min := by
      rw [ha]; ring
    linarith [hbnd.1]
  · have : (b : ℚ) / 100 = ci.yield_range_kg_ha.max := by
      rw [hb]; ring
    linarith [hbnd.2]

theorem fallback_yield_in_range_witness :
    2500 ≤ (predict_yield_ml envFallback farmRice).predicted_yield_kg_ha ∧
      (predict_yield_ml envFallback farmRice).predicted_yield_kg_ha ≤ 6500 := by
  have h := fallback_yield_in_range envFallback farmRice crop_rice rfl
    (by rfl) ⟨"model failure", by rfl⟩
    ⟨250000, by norm_num [crop_rice]⟩ ⟨650000, by norm_num [crop_rice]⟩
    (by norm_num [crop_rice])
  simpa [crop_rice] using h

/-- C1 (amended): an unresolved category does not by itself trigger the
knowledge-based fallback — it is encoded as 0 and the model's output is
still used; the fallback interpolation is used exactly when the `try` block
(encoder transform or model prediction) raises and the crop is in the
knowledge base. -/
theorem model_result_vs_fallback (env : Env) (inp : FarmInput)
    (hload : env.ml_model_loaded = true) :
    (∀ y, modelAttempt env inp = Except.ok y →
      (predict_yield_ml env inp).predicted_yield_kg_ha = pyRound2 y) ∧
    (∀ e ci, modelAttempt env inp = Except.error e →
      get_crop_info inp.crop_type = some ci →
      (predict_yield_ml env inp).predicted_yield_kg_ha
        = pyRound2 (kbFallbackYield ci (effIrrigation inp) (effRainfall inp)
            (effFertilizer inp))) := by
  constructor
  · intro y hy
    simp [predict_yield_ml, predictedAndConfidence, hload, hy]
  · intro e ci he hci
    simp [predict_yield_ml, predictedAndConfidence, hload, he, hci]

theorem model_result_vs_fallback_witness :
    (predict_yield_ml envModelOk farmWheat).predicted_yield_kg_ha
      = pyRound2 9999 :=
  (model_result_vs_fallback envModelOk farmWheat rfl).1 9999 (by rfl)

theorem pyRoundInt_intCast (n : ℤ) : pyRoundInt ((n : ℚ)) = n := by
  unfold pyRoundInt
  rw [Int.fract_intCast]
  norm_num

theorem pyRound2_eq_of_mul_intCast (x : ℚ) (m : ℤ) (h : 100 * x = (m : ℚ)) :
    pyRound2 x = (m : ℚ) / 100 := by
  unfold pyRound2
  rw [h, pyRoundInt_intCast]

/-- C1 counterexample: `"wheat"` is not among the encoder's crop classes and
the crop is in the knowledge base, yet `predict_yield_ml` returns the
model's output 9999, not the knowledge-based interpolation (which equals
3785.25 here). -/
theorem unknown_category_uses_model :
    pyStrip (pyLower farmWheat.crop_type) ∉ envModelOk.cropClasses ∧
      (get_crop_info farmWheat.crop_type).isSome = true ∧
      (predict_yield_ml envModelOk farmWheat).predicted_yield_kg_ha = 9999 ∧
      pyRound2 (kbFallbackYield crop_wheat (effIrrigation farmWheat)
          (effRainfall farmWheat) (effFertilizer farmWheat)) = 15141/4 ∧
      (9999 : ℚ) ≠ 15141/4 := by
  have hma : modelAttempt envModelOk farmWheat = Except.ok 9999 := rfl
  have hload : envModelOk.ml_model_loaded = true := rfl
  have h9999 : pyRound2 ((9999 : ℚ)) = 9999 := by
    rw [pyRound2_eq_of_mul_intCast (9999 : ℚ) 999900 (by norm_num)]
    norm_num
  have e1 : effIrrigation farmWheat = 60 := by decide
  have e2 : effRainfall farmWheat = 900 := by decide
  have e3 : effFertilizer farmWheat = 150 := by decide
  have hkb : kbFallbackYield crop_wheat (effIrrigation farmWheat)
      (effRainfall farmWheat) (effFertilizer farmWheat) = 15141/4 := by
    rw [e1, e2, e3]
    unfold kbFallbackYield
    norm_num [crop_wheat, min_def, max_def]
  refine ⟨by decide, by decide, ?_, ?_, by norm_num⟩
  · have h3 : (predict_yield_ml envModelOk farmWheat).predicted_yield_kg_ha
        = pyRound2 9999 := by
      simp [predict_yield_ml, predictedAndConfidence, hload, hma]
    rw [h3, h9999]
  · rw [hkb, pyRound2_eq_of_mul_intCast (15141/4 : ℚ) 378525 (by norm_num)]
    norm_num

/-- C3 counterexample: `FarmInput` carries nine fields, not eight. -/
theorem farm_input_field_count :
    farmInputFields.length = 9 ∧ farmInputFields.length ≠ 8 := by decide

/-- C3 (amended): `FarmInput` carries nine scalar inputs and `MLPrediction`
eleven output fields; `predict_yield_ml` is a pure function of the input
under a fixed environment — equal inputs give equal predictions — and the
`/predict` route touches no persisted state. -/
theorem predict_pure (env : Env) (a b : FarmInput) (h : a = b) (db : DbState) :
    farmInputFields.length = 9 ∧ mlPredictionFields.length = 11 ∧
      predict_yield_ml env a = predict_yield_ml env b ∧
      applyOp ApiOp.predictRoute db = db :=
  ⟨rfl, rfl, by rw [h], rfl⟩

theorem predict_pure_witness :
    farmInputFields.length = 9 ∧ mlPredictionFields.length = 11 ∧
      predict_yield_ml envFallback farmRice = predict_yield_ml envFallback farmRice ∧
      applyOp ApiOp.predictRoute { sessions := [], messages := [] }
        = { sessions := [], messages := [] } :=
  predict_pure envFallback farmRice farmRice rfl { sessions := [], messages := [] }
